import Mathlib

/-!
Verification of the midi-keyboard repository's core: the MIDI recorder
(src/utils/MidiRecorder.js), the connection manager's retry/backoff logic
(src/hooks/useMidiConnectionManager.js), the per-source note tracker
(src/hooks/usePianoNotes.js), the audio engine's sustain handling
(src/hooks/useAudioEngine.js), and the timing analyzer
(src/utils/NoteRecognitionModule.js), shallowly embedded in Lean.

Conventions of the embedding:
- JavaScript numbers that only ever hold integers (timestamps, tick counts,
  byte values, retry counters) are modelled as Int or Nat.
- Velocities are JavaScript numbers in [0,1]; they are modelled as Rat.
  A possibly-undefined field is an Option; None models the absence of the
  key / the value undefined.
- Date.now() is passed in explicitly as a parameter named now.
- JavaScript truthiness of a number is being nonzero; of an optional field,
  being present and nonzero.
-/

namespace MidiKeyboard

/-! ### midiUtils.js -/

/-- The sharp spelling of one pitch class, as used by the note table in
midiUtils.js. -/
def sharpName : Nat → String
  | 0 => "C"
  | 1 => "C#"
  | 2 => "D"
  | 3 => "D#"
  | 4 => "E"
  | 5 => "F"
  | 6 => "F#"
  | 7 => "G"
  | 8 => "G#"
  | 9 => "A"
  | 10 => "A#"
  | _ => "B"

/-- The literal 88-entry map midiNoteNumberToName of midiUtils.js: keys 21..108,
value for key n the standard sharp spelling, which for every listed key equals
sharpName (n % 12) followed by the octave digit n / 12 - 1 (21 maps to A0,
60 to C4, 108 to C8, exactly as the source's table). -/
def midiNoteNumberToName : List (Nat × String) :=
  (List.range 88).map (fun i =>
    let n := 21 + i
    (n, sharpName (n % 12) ++ toString (n / 12 - 1)))

/-- getMidiNoteNumber of midiUtils.js: scan the entries of the table for the
first one whose name equals the argument; null (None) if absent. -/
def getMidiNoteNumber (noteName : String) : Option Nat :=
  (midiNoteNumberToName.find? (fun p => p.2 = noteName)).map (fun p => p.1)

/-! ### MidiRecorder.js: state and recording operations -/

/-- The fields of a midi message that the recorder and its consumers read:
type ("noteon" / "noteoff" / "controlchange"), note name, velocity
(absent on device note-off messages), controller number and sustain flag
(control-change only), and the wall-clock timestamp. -/
structure MidiMsg where
  type : String
  note : String
  velocity : Option Rat
  controller : Option Nat
  isOn : Option Bool
  timestamp : Int
deriving DecidableEq, Repr

/-- A recorded event: the message fields the consumers read, plus the
recordTime relative to the recording start that processMidiMessage adds. -/
structure RecEvent where
  type : String
  note : String
  velocity : Option Rat
  recordTime : Int
deriving DecidableEq, Repr

/-- The closure state of createMidiRecorder: events, isRecording, startTime,
stopTime (the latter two null until set). -/
structure RecorderState where
  events : List RecEvent
  isRecording : Bool
  startTime : Option Int
  stopTime : Option Int
deriving DecidableEq, Repr

/-- startRecording: clear the buffer, set isRecording, record the start
wall-clock time, null the stop time. -/
def startRecording (now : Int) (_s : RecorderState) : RecorderState :=
  ⟨[], true, some now, none⟩

/-- stopRecording: clear isRecording and record the stop wall-clock time. -/
def stopRecording (now : Int) (s : RecorderState) : RecorderState :=
  { s with isRecording := false, stopTime := some now }

/-- processMidiMessage: a no-op unless recording; otherwise append the message
with recordTime = now - startTime (JavaScript coerces a null startTime to 0). -/
def processMidiMessage (now : Int) (m : MidiMsg) (s : RecorderState) : RecorderState :=
  if s.isRecording then
    { s with events := s.events ++ [⟨m.type, m.note, m.velocity, now - s.startTime.getD 0⟩] }
  else s

/-- getEventCount of the recorder. -/
def getEventCount (s : RecorderState) : Nat := s.events.length

/-! ### MidiRecorder.js: JSON export / import -/

/-- One element of the events array that exportToJSON writes: the type, note,
velocity and time keys (velocity absent when the recorded event had none). -/
structure JsonEvent where
  type : String
  note : String
  velocity : Option Rat
  time : Int
deriving DecidableEq, Repr

/-- The object exportToJSON serializes. -/
structure RecordingJson where
  startTime : Option Int
  stopTime : Option Int
  duration : Option Int
  events : List JsonEvent
deriving DecidableEq, Repr

/-- exportToJSON: startTime and stopTime verbatim, duration only when stopTime
is truthy (stopTime - startTime with a null startTime coerced to 0), and the
events projected to their (type, note, velocity, time) keys. -/
def exportToJSON (s : RecorderState) : RecordingJson :=
  { startTime := s.startTime
    stopTime := s.stopTime
    duration :=
      match s.stopTime with
      | some st => if st = 0 then none else some (st - s.startTime.getD 0)
      | none => none
    events := s.events.map (fun e => ⟨e.type, e.note, e.velocity, e.recordTime⟩) }

/-- The shape of the parsed events field that importFromJSON inspects:
absent or falsy, truthy but not an array, or an array of event objects. -/
inductive JsonEventsField where
  | absentOrFalsy : JsonEventsField
  | nonArray : JsonEventsField
  | array : List JsonEvent → JsonEventsField
deriving DecidableEq, Repr

/-- The parsed JSON value importFromJSON reads its three fields from. -/
structure ParsedRecording where
  startTime : Option Int
  stopTime : Option Int
  events : JsonEventsField
deriving DecidableEq, Repr

/-- What JSON.parse did with the input string: notJson models every input on
which the try-block throws (a string that is not valid JSON, or one that
parses to null so that reading data.events throws); parsed carries the three
fields importFromJSON reads from the parsed value. -/
inductive ImportInput where
  | notJson : ImportInput
  | parsed : ParsedRecording → ImportInput
deriving DecidableEq, Repr

/-- The JavaScript expression x || d on an optional number field: absent,
null or 0 falls back to the default. -/
def jsOrInt (v : Option Int) (dflt : Int) : Int :=
  match v with
  | some x => if x = 0 then dflt else x
  | none => dflt

/-- The JavaScript expression x || null on an optional number field. -/
def jsOrNull (v : Option Int) : Option Int :=
  match v with
  | some x => if x = 0 then none else some x
  | none => none

/-- importFromJSON: return false leaving the state untouched unless the parse
succeeded and the events field is an array; on success overwrite startTime
(falling back to Date.now()), stopTime (falling back to null) and the events
buffer, mapping each element's time key back to recordTime. -/
def importFromJSON (now : Int) (inp : ImportInput) (s : RecorderState) :
    Bool × RecorderState :=
  match inp with
  | .notJson => (false, s)
  | .parsed r =>
    match r.events with
    | .array xs =>
        (true,
         { s with
            startTime := some (jsOrInt r.startTime now)
            stopTime := jsOrNull r.stopTime
            events := xs.map (fun e => ⟨e.type, e.note, e.velocity, e.time⟩) })
    | _ => (false, s)

/-- Bridging JSON.stringify and JSON.parse on the value exportToJSON builds:
the string it writes is valid JSON, its events key is an array, and parsing it
back yields the same startTime, stopTime and events (a velocity key dropped by
stringify because the value was undefined reads back as undefined, i.e. None).
The duration key is also present in the string but importFromJSON never reads
it, so it is not part of the parsed shape. -/
def reparse (j : RecordingJson) : ImportInput :=
  .parsed ⟨j.startTime, j.stopTime, .array j.events⟩

/-- The observable tuple of a recorded event named by the round-trip claim. -/
def eventTuple (e : RecEvent) : String × String × Option Rat × Int :=
  (e.type, e.note, e.velocity, e.recordTime)

/-! ### MidiRecorder.js: playRecording and its cancellation handle -/

/-- JavaScript truthiness of the comparison velocity > 0: false when the
velocity key is absent (undefined > 0 is false). -/
def velPos : Option Rat → Bool
  | some v => decide (0 < v)
  | none => false

/-- A callback invocation playback can make. -/
inductive PlayCall where
  | noteOn : String → Rat → PlayCall
  | noteOff : String → PlayCall
  | finish : PlayCall
deriving DecidableEq, Repr

/-- A setTimeout scheduled by playRecording: firing time (the event's
recordTime, or end time + 100 for the completion callback) and the call. -/
structure PlayTask where
  time : Int
  call : PlayCall
deriving DecidableEq, Repr

/-- The timeout body playRecording schedules for one buffered event: a noteOn
call when the event is a noteon with positive velocity, a noteOff call when it
is a noteoff or a noteon with velocity exactly 0, nothing otherwise. -/
def scheduleEvent (e : RecEvent) : Option PlayTask :=
  if e.type = "noteon" ∧ velPos e.velocity = true then
    some ⟨e.recordTime, .noteOn e.note (e.velocity.getD 0)⟩
  else if e.type = "noteoff" ∨ (e.type = "noteon" ∧ e.velocity = some 0) then
    some ⟨e.recordTime, .noteOff e.note⟩
  else none

/-- Math.max over the recordTimes of a nonempty buffer (0 for the empty one,
matching the events.length > 0 ? ... : 0 expression in the source). -/
def maxRecordTime : List RecEvent → Int
  | [] => 0
  | e :: rest => (rest.map (fun x => x.recordTime)).foldl max e.recordTime

/-- What one call to playRecording does before returning: the callbacks it
invokes synchronously, and the timeouts it leaves scheduled. -/
structure PlayResult where
  immediate : List PlayCall
  tasks : List PlayTask
deriving DecidableEq, Repr

/-- playRecording: with an empty buffer call onFinish synchronously and
schedule nothing (returning a stop that does nothing); otherwise schedule a
timeout per note event at its recordTime and the completion callback at the
latest recordTime + 100, invoking nothing synchronously. -/
def playRecording (evs : List RecEvent) : PlayResult :=
  if evs = [] then ⟨[.finish], []⟩
  else ⟨[], evs.filterMap scheduleEvent ++ [⟨maxRecordTime evs + 100, .finish⟩]⟩

/-- The run-time state of one playback handle: the isStopped flag of the
closure and the timeouts still pending (not yet fired, not cleared). -/
structure PBState where
  stopped : Bool
  pending : List PlayTask
deriving DecidableEq, Repr

/-- The playback state just after playRecording returns. -/
def pbInit (evs : List RecEvent) : PBState :=
  ⟨false, (playRecording evs).tasks⟩

/-- The stop method of the returned handle: set isStopped and clearTimeout
every scheduled timeout. -/
def pbStop (_s : PBState) : PBState := ⟨true, []⟩

/-- The event loop firing one timeout: it runs only if it is still pending,
and its body invokes the callback only if the isStopped flag is unset (the
guard inside every scheduled function of the source). -/
def pbFire (s : PBState) (t : PlayTask) : PBState × Option PlayCall :=
  if t ∈ s.pending ∧ s.stopped = false then
    (⟨s.stopped, s.pending.erase t⟩, some t.call)
  else (s, none)

/-- Firing a sequence of timeouts in order. -/
def pbRun (s : PBState) : List PlayTask → PBState
  | [] => s
  | t :: ts => pbRun (pbFire s t).1 ts

/-! ### MidiRecorder.js: exportToMIDI -/

/-- The base-128 digits of a natural number, most significant first. -/
def vlqDigits (n : Nat) : List Nat :=
  if _h : n < 128 then [n]
  else vlqDigits (n / 128) ++ [n % 128]
decreasing_by exact Nat.div_lt_self (by omega) (by norm_num)

/-- Set the continuation bit 0x80 on every byte except the last. -/
def markCont : List Nat → List Nat
  | [] => []
  | [b] => [b]
  | b :: rest => (b ||| 128) :: markCont rest

/-- encodeVariableLength of MidiRecorder.js: a negative value throws (None);
a value below 128 is a single byte; otherwise the 7-bit groups, high group
first, with the continuation bit on all but the last byte. -/
def encodeVariableLength (value : Int) : Option (List Nat) :=
  if value < 0 then none
  else if value < 128 then some [value.toNat]
  else some (markCont (vlqDigits value.toNat))

/-- encodeInt32 of MidiRecorder.js: the 4 big-endian bytes of the value
(the chunk payload length, far below 2^31 in every reachable case). -/
def encodeInt32 (value : Nat) : List Nat :=
  [value / 2 ^ 24 % 256, value / 2 ^ 16 % 256, value / 2 ^ 8 % 256, value % 256]

/-- The fixed 14-byte header chunk of exportToMIDI. -/
def headerChunk : List Nat :=
  [0x4D, 0x54, 0x68, 0x64,
   0x00, 0x00, 0x00, 0x06,
   0x00, 0x01,
   0x00, 0x02,
   0x01, 0xE0]

/-- The fixed tempo-track bytes of exportToMIDI (chunk id, declared length
0x14, the 120 BPM tempo meta event, the end-of-track meta event). -/
def track1Events : List Nat :=
  [0x4D, 0x54, 0x72, 0x6B,
   0x00, 0x00, 0x00, 0x14,
   0x00, 0xFF, 0x51, 0x03,
   0x07, 0xA1, 0x20,
   0x00, 0xFF, 0x2F, 0x00]

/-- Math.round of a rational, as JavaScript rounds: halves toward positive
infinity. -/
def jsRound (x : Rat) : Int := round x

/-- The ms-to-ticks conversion of exportToMIDI. -/
def midiTicks (ms : Int) : Int := jsRound ((ms : Rat) * 480 / 500)

/-- The JavaScript ToUint8 coercion applied by the Uint8Array constructor. -/
def toUint8 (i : Int) : Nat := (i % 256).toNat

/-- The status/note/velocity bytes exportToMIDI pushes for one event: 0x90,
note number (null coerced to 0), round(velocity * 127) for a noteon with
positive velocity; 0x80, note number, 0x40 for a noteoff or velocity-0 noteon;
nothing for any other event. -/
def eventDataBytes (e : RecEvent) : List Nat :=
  if e.type = "noteon" ∧ velPos e.velocity = true then
    [0x90, (getMidiNoteNumber e.note).getD 0, toUint8 (jsRound ((e.velocity.getD 0) * 127))]
  else if e.type = "noteoff" ∨ (e.type = "noteon" ∧ e.velocity = some 0) then
    [0x80, (getMidiNoteNumber e.note).getD 0, 0x40]
  else []

/-- Insert an event into a list sorted by recordTime, before the first
strictly later element (so that the overall sort is stable, as the
Array.prototype.sort of the source is). -/
def insertByTime (e : RecEvent) : List RecEvent → List RecEvent
  | [] => [e]
  | x :: xs => if x.recordTime < e.recordTime then x :: insertByTime e xs else e :: x :: xs

/-- The sort by recordTime that exportToMIDI applies to a copy of the buffer. -/
def sortByRecordTime (evs : List RecEvent) : List RecEvent :=
  evs.foldr insertByTime []

/-- The loop of exportToMIDI over the sorted events: for each event push the
variable-length encoding of the tick delta to the previous event, then the
event's data bytes; None if a delta is negative and the encoder throws. -/
def track2Loop : List RecEvent → Int → Option (List Nat)
  | [], _ => some []
  | e :: rest, prevTime =>
    let eventTimeInTicks := midiTicks e.recordTime
    match encodeVariableLength (eventTimeInTicks - prevTime) with
    | none => none
    | some deltaBytes =>
      match track2Loop rest eventTimeInTicks with
      | none => none
      | some tail => some (deltaBytes ++ eventDataBytes e ++ tail)

/-- exportToMIDI: header chunk, fixed tempo track, then the note track, whose
payload is the encoded events followed by the end-of-track meta event and
whose declared length is encodeInt32 of that payload's length. -/
def exportToMIDI (evs : List RecEvent) : Option (List Nat) :=
  match track2Loop (sortByRecordTime evs) 0 with
  | none => none
  | some body =>
    let track2EventArray := body ++ [0x00, 0xFF, 0x2F, 0x00]
    some (headerChunk ++ track1Events ++
      ([0x4D, 0x54, 0x72, 0x6B] ++ encodeInt32 track2EventArray.length ++ track2EventArray))

/-- Read a 4-byte big-endian length field. -/
def readBE32 (bs : List Nat) : Nat :=
  bs.foldl (fun acc b => acc * 256 + b) 0

/-! ### useMidiConnectionManager.js: retry / backoff logic -/

/-- The part of the connection manager's state the retry logic owns:
the retryAttemptsRef counter. -/
structure ConnMgrState where
  retryAttempts : Nat
deriving DecidableEq, Repr

/-- The delay computed in connectToDevice's catch block:
Math.pow(2, retryAttempts) * 1000. -/
def backoffDelayMs (attempt : Nat) : Nat := 2 ^ attempt * 1000

/-- What a failed connectToDevice call schedules: a retry timer with the
backoff delay when autoRetry is set and the counter is still below
maxRetryAttempts, nothing otherwise. -/
def retryScheduled (autoRetry : Bool) (maxRetryAttempts : Nat) (s : ConnMgrState) :
    Option Nat :=
  if autoRetry = true ∧ s.retryAttempts < maxRetryAttempts then
    some (backoffDelayMs s.retryAttempts)
  else none

/-- The retry timer firing: increment the attempt counter, then call
connectToDevice again. -/
def onRetryTimerFire (s : ConnMgrState) : ConnMgrState :=
  { s with retryAttempts := s.retryAttempts + 1 }

/-- A successful connectToDevice call: the attempt counter is reset to 0. -/
def onConnectSuccess (s : ConnMgrState) : ConnMgrState :=
  { s with retryAttempts := 0 }

/-- The delays scheduled along a run in which every connection attempt fails:
the first attempt happens in state s; whenever a retry is scheduled, its
timer fires, the counter is bumped, and the next attempt fails again. The
fuel bounds the recursion and any value at least maxRetryAttempts + 1 is
enough to exhaust the automatic retries. -/
def failAllCascade (autoRetry : Bool) (maxRetryAttempts : Nat) :
    Nat → ConnMgrState → List Nat
  | 0, _ => []
  | fuel + 1, s =>
    match retryScheduled autoRetry maxRetryAttempts s with
    | none => []
    | some d => d :: failAllCascade autoRetry maxRetryAttempts fuel (onRetryTimerFire s)

/-! ### usePianoNotes.js: per-source note sets -/

/-- The four input sources keyed in the notesBySource object, in the key
order of the object literal. -/
inductive NoteSource where
  | keyboard : NoteSource
  | mouse : NoteSource
  | midi : NoteSource
  | program : NoteSource
deriving DecidableEq, Repr

/-- A JavaScript Set of note names, modelled as its elements in insertion
order (never containing duplicates). -/
abbrev JsNoteSet := List String

/-- Set.prototype.add: appends unless already present. -/
def jsSetAdd (xs : JsNoteSet) (x : String) : JsNoteSet :=
  if x ∈ xs then xs else xs ++ [x]

/-- Set.prototype.delete: removes the element. -/
def jsSetDelete (xs : JsNoteSet) (x : String) : JsNoteSet :=
  xs.filter (fun y => y ≠ x)

/-- The state of usePianoNotes that activateNote and deactivateNote touch:
the four per-source sets and the derived activeNotes array. -/
structure PianoNotesState where
  keyboard : JsNoteSet
  mouse : JsNoteSet
  midi : JsNoteSet
  program : JsNoteSet
  activeNotes : List String
deriving DecidableEq, Repr

/-- Read one source's set. -/
def sourceSet (s : PianoNotesState) : NoteSource → JsNoteSet
  | .keyboard => s.keyboard
  | .mouse => s.mouse
  | .midi => s.midi
  | .program => s.program

/-- Replace one source's set. -/
def setSourceSet (s : PianoNotesState) (src : NoteSource) (xs : JsNoteSet) :
    PianoNotesState :=
  match src with
  | .keyboard => { s with keyboard := xs }
  | .mouse => { s with mouse := xs }
  | .midi => { s with midi := xs }
  | .program => { s with program := xs }

/-- The comprehensive active-notes list both setters derive: a fresh Set
filled by iterating the sources in object-key order, read out as an array. -/
def unionActive (s : PianoNotesState) : List String :=
  let add := fun (acc : List String) (xs : JsNoteSet) =>
    xs.foldl (fun a n => if n ∈ a then a else a ++ [n]) acc
  add (add (add (add [] s.keyboard) s.mouse) s.midi) s.program

/-- activateNote: a no-op on a falsy note; otherwise add the note to the
source's set and recompute the activeNotes array from all sources. -/
def activateNote (note : String) (src : NoteSource) (s : PianoNotesState) :
    PianoNotesState :=
  if note = "" then s
  else
    let s1 := setSourceSet s src (jsSetAdd (sourceSet s src) note)
    { s1 with activeNotes := unionActive s1 }

/-- deactivateNote: a no-op on a falsy note; otherwise delete the note from
the source's set and recompute the activeNotes array from all sources. -/
def deactivateNote (note : String) (src : NoteSource) (s : PianoNotesState) :
    PianoNotesState :=
  if note = "" then s
  else
    let s1 := setSourceSet s src (jsSetDelete (sourceSet s src) note)
    { s1 with activeNotes := unionActive s1 }

/-! ### useAudioEngine.js: sustain and note release -/

/-- A command sent to the Tone.js sampler. -/
inductive SynthCmd where
  | release : String → SynthCmd
  | releaseAll : SynthCmd
deriving DecidableEq, Repr

/-- The audio-engine state that stopNote, stopAllNotes and setSustain read:
whether the synth ref is populated, the isLoaded flag, the sustain flag, and
the activeNotesRef set of currently sounding notes. -/
structure AudioEngineState where
  synthPresent : Bool
  isLoaded : Bool
  isSustainActive : Bool
  activeNotes : List String
deriving DecidableEq, Repr

/-- stopAllNotes: a no-op without a synth or before the samples are loaded;
otherwise releaseAll on the sampler and clear the active-note set. -/
def stopAllNotes (s : AudioEngineState) : AudioEngineState × List SynthCmd :=
  if s.synthPresent = false ∨ s.isLoaded = false then (s, [])
  else ({ s with activeNotes := [] }, [SynthCmd.releaseAll])

/-- setSustain: record the new pedal state; when the pedal is released and a
synth exists, call stopAllNotes (the source's comment notes it releases all
notes rather than only the pedal-deferred ones). -/
def setSustain (active : Bool) (s : AudioEngineState) :
    AudioEngineState × List SynthCmd :=
  let s1 := { s with isSustainActive := active }
  if active = false ∧ s1.synthPresent = true then stopAllNotes s1
  else (s1, [])

/-! ### NoteRecognitionModule.js: the timing analyzer -/

/-- One noteTimings entry. -/
structure TimingEntry where
  startTime : Int
  endTime : Option Int
  duration : Option Int
deriving DecidableEq, Repr

/-- The analyzer's closure state: the noteTimings object (keyed by the note
number, which is null for an unknown note name), the tempo, and the derived
beat duration. -/
structure TimingAnalyzerState where
  noteTimings : List (Option Nat × TimingEntry)
  metronomeTempo : Rat
  beatDuration : Rat
deriving DecidableEq, Repr

/-- The state createTimingAnalyzer starts from: tempo 60 BPM. -/
def taInit : TimingAnalyzerState := ⟨[], 60, 60000 / 60⟩

/-- setTempo: store the BPM and recompute the beat duration 60000 / bpm. -/
def setTempo (bpm : Rat) (s : TimingAnalyzerState) : TimingAnalyzerState :=
  { s with metronomeTempo := bpm, beatDuration := 60000 / bpm }

/-- Object key update: replace the entry in place when the key exists,
append it otherwise. -/
def updateKey (k : Option Nat) (v : TimingEntry) :
    List (Option Nat × TimingEntry) → List (Option Nat × TimingEntry)
  | [] => [(k, v)]
  | (k1, v1) :: rest =>
    if k1 = k then (k, v) :: rest else (k1, v1) :: updateKey k v rest

/-- Object key lookup. -/
def lookupKey (k : Option Nat) (m : List (Option Nat × TimingEntry)) :
    Option TimingEntry :=
  (m.find? (fun p => p.1 = k)).map (fun p => p.2)

/-- Truthiness of noteTimings[noteNum]?.startTime: the entry exists and its
startTime is a nonzero number. -/
def startTruthy : Option TimingEntry → Bool
  | some e => decide (e.startTime ≠ 0)
  | none => false

/-- The analyzer's handleMidiMessage: a noteon with positive velocity opens a
fresh entry at the message timestamp; a noteoff, or a noteon with velocity 0,
closes the entry (when one with a truthy startTime exists), recording the end
time and the duration; everything else is ignored. -/
def taHandle (m : MidiMsg) (s : TimingAnalyzerState) : TimingAnalyzerState :=
  let k := getMidiNoteNumber m.note
  if m.type = "noteon" ∧ velPos m.velocity = true then
    { s with noteTimings := updateKey k ⟨m.timestamp, none, none⟩ s.noteTimings }
  else if (m.type = "noteoff" ∨ (m.type = "noteon" ∧ m.velocity = some 0))
      ∧ startTruthy (lookupKey k s.noteTimings) = true then
    match lookupKey k s.noteTimings with
    | some e =>
      let closed : TimingEntry :=
        ⟨e.startTime, some m.timestamp, some (m.timestamp - e.startTime)⟩
      { s with noteTimings := updateKey k closed s.noteTimings }
    | none => s
  else s

/-- One per-note result of analyzeTiming. -/
structure TimingResult where
  expected : Rat
  actual : Rat
  accuracy : Int
  isTooLong : Bool
  isTooShort : Bool
deriving DecidableEq, Repr

/-- The per-note computation inside analyzeTiming, exactly as the source
writes it: durationRatio = actual / expected, accuracy = 1 - min(|1 -
durationRatio|, 1), reported as Math.round(accuracy * 100), and the two
flags compared against 1.2 and 0.8. -/
def analyzeEntry (expectedDuration : Rat) (actual : Rat) : TimingResult :=
  let durationRatio := actual / expectedDuration
  let accuracy : Rat := 1 - min |1 - durationRatio| 1
  { expected := expectedDuration
    actual := actual
    accuracy := jsRound (accuracy * 100)
    isTooLong := decide (durationRatio > 12 / 10)
    isTooShort := decide (durationRatio < 8 / 10) }

/-- analyzeTiming: one result per tracked note whose duration is complete
(entries with a null duration are skipped). -/
def analyzeTiming (expectedDuration : Rat) (s : TimingAnalyzerState) :
    List (Option Nat × TimingResult) :=
  s.noteTimings.filterMap (fun p =>
    match p.2.duration with
    | none => none
    | some d => some (p.1, analyzeEntry expectedDuration (d : Rat)))

/-- analyzeRhythm: analyzeTiming at the current beat duration. -/
def analyzeRhythm (s : TimingAnalyzerState) : List (Option Nat × TimingResult) :=
  analyzeTiming s.beatDuration s

/-! ### The keyboard component's MIDI message dispatch (src/unnamed/part_013) -/

/-- An action the keyboard component's handleMidiMessage dispatches. -/
inductive DispatchAct where
  | noteOn : String → String → DispatchAct
  | noteOff : String → String → DispatchAct
  | sustain : Bool → DispatchAct
deriving DecidableEq, Repr

/-- The dispatch switch of the component's handleMidiMessage: nothing before
audio is started; a velocity-0 noteon dispatches handleNoteOff exactly like a
noteoff; a positive-velocity noteon dispatches handleNoteOn; a controlchange
on controller 64 dispatches setSustain. (The handler afterwards also forwards
the raw message object unchanged to an optional parent callback; that
pass-through is outside the dispatch modelled here.) -/
def handleMidiDispatch (audioStarted : Bool) (m : MidiMsg) : List DispatchAct :=
  if audioStarted = false then []
  else if m.type = "noteon" then
    if m.velocity = some 0 then [.noteOff m.note "midi"]
    else [.noteOn m.note "midi"]
  else if m.type = "noteoff" then [.noteOff m.note "midi"]
  else if m.type = "controlchange" then
    if m.controller = some 64 then [.sustain (m.isOn.getD false)]
    else []
  else []

/-! ### Spec-side definitions and concrete scenarios -/

/-- The clamp the specification's timing formula names: clamp(x, 0, 1). This
definition follows the spec's wording, to be compared with analyzeEntry. -/
def clamp01 (x : Rat) : Rat := max 0 (min x 1)

/-- The spec scenario: tempo 120 BPM, one note opened at t = 1000 and closed
at t = 1500 (held exactly one 500 ms beat), analyzed by analyzeRhythm. -/
def taScenarioHeld500 : List (Option Nat × TimingResult) :=
  analyzeRhythm
    (taHandle ⟨"noteoff", "C4", none, none, none, 1500⟩
      (taHandle ⟨"noteon", "C4", some (8 / 10), none, none, 1000⟩
        (setTempo 120 taInit)))

/-- The spec scenario: tempo 120 BPM, one note held 700 ms against the 500 ms
beat. -/
def taScenarioHeld700 : List (Option Nat × TimingResult) :=
  analyzeRhythm
    (taHandle ⟨"noteoff", "D4", none, none, none, 2700⟩
      (taHandle ⟨"noteon", "D4", some (8 / 10), none, none, 2000⟩
        (setTempo 120 taInit)))

/-! ### Helper lemmas -/

/-- Adding an element already in a JavaScript set is a no-op, so a second
identical add is one. -/
theorem jsSetAdd_idem (xs : JsNoteSet) (x : String) :
    jsSetAdd (jsSetAdd xs x) x = jsSetAdd xs x := by
  by_cases h : x ∈ xs <;> simp [jsSetAdd, h]

/-- A second identical delete from a JavaScript set is a no-op. -/
theorem jsSetDelete_idem (xs : JsNoteSet) (x : String) :
    jsSetDelete (jsSetDelete xs x) x = jsSetDelete xs x := by
  simp [jsSetDelete, List.filter_filter]

/-- Iterating an idempotent function n + 1 times equals applying it once. -/
theorem iterate_of_idempotent {α : Type} (f : α → α) (hf : ∀ x, f (f x) = f x) :
    ∀ (n : Nat) (x : α), f^[n + 1] x = f x
  | 0, x => by simp
  | n + 1, x => by
    rw [Function.iterate_succ_apply, iterate_of_idempotent f hf n (f x), hf]

/-- unionActive reads only the four per-source sets, never the cached
activeNotes array. -/
theorem unionActive_mk (k m mi p : JsNoteSet) (a : List String) :
    unionActive ⟨k, m, mi, p, a⟩ = unionActive ⟨k, m, mi, p, []⟩ := rfl

/-- A single activateNote call is absorbed by an immediately repeated one. -/
theorem activateNote_idem (note : String) (src : NoteSource) (s : PianoNotesState) :
    activateNote note src (activateNote note src s) = activateNote note src s := by
  by_cases hn : note = ""
  · simp [activateNote, hn]
  · cases src <;>
      simp [activateNote, hn, sourceSet, setSourceSet, jsSetAdd_idem, unionActive_mk]

/-- The note table maps C4 to the MIDI number 60. -/
theorem getMidiNoteNumber_C4 : getMidiNoteNumber "C4" = some 60 := by decide

/-- The note table maps D4 to the MIDI number 62. -/
theorem getMidiNoteNumber_D4 : getMidiNoteNumber "D4" = some 62 := by decide

/-- A single deactivateNote call is absorbed by an immediately repeated one. -/
theorem deactivateNote_idem (note : String) (src : NoteSource) (s : PianoNotesState) :
    deactivateNote note src (deactivateNote note src s) = deactivateNote note src s := by
  by_cases hn : note = ""
  · simp [deactivateNote, hn]
  · cases src <;>
      simp [deactivateNote, hn, sourceSet, setSourceSet, jsSetDelete_idem, unionActive_mk]

/-! ### Claim theorems -/

/-- C1: the output of exportToMIDI starts with the correct 14-byte MThd chunk
(length 6, format 1, 2 tracks, division 0x01E0), but the claim that every
track chunk's declared 4-byte big-endian length equals its payload byte count
fails on the code: evaluated at the concrete failing input (the empty
recording), the tempo track declares length 20 while its payload — the bytes
between its length field and the start of the note-track chunk id — is only
11 bytes (indeed the fixed tempo-track constant carries 11 payload bytes for
every input). -/
theorem exportToMIDI_tempo_chunk_declares_20_but_carries_11 :
    (exportToMIDI []).isSome = true
    ∧ ((exportToMIDI []).getD []).take 14 =
        [0x4D, 0x54, 0x68, 0x64, 0x00, 0x00, 0x00, 0x06, 0x00, 0x01, 0x00, 0x02, 0x01, 0xE0]
    ∧ (((exportToMIDI []).getD []).drop 14).take 4 = [0x4D, 0x54, 0x72, 0x6B]
    ∧ readBE32 ((((exportToMIDI []).getD []).drop 18).take 4) = 20
    ∧ (((exportToMIDI []).getD []).drop 33).take 4 = [0x4D, 0x54, 0x72, 0x6B]
    ∧ track1Events.length = 19
    ∧ (track1Events.drop 8).length = 11
    ∧ (11 : Nat) ≠ 20 := by
  decide

/-- C2: importing the export of any recorder state succeeds, reproduces the
(type, note, velocity, time) tuples of the recorded events in order, and
preserves getEventCount — whatever recorder state the import overwrites. -/
theorem importFromJSON_exportToJSON_roundTrip (s sPrior : RecorderState) (now : Int) :
    (importFromJSON now (reparse (exportToJSON s)) sPrior).1 = true
    ∧ ((importFromJSON now (reparse (exportToJSON s)) sPrior).2).events.map eventTuple
        = s.events.map eventTuple
    ∧ getEventCount (importFromJSON now (reparse (exportToJSON s)) sPrior).2
        = getEventCount s := by
  refine ⟨rfl, ?_, ?_⟩ <;>
    simp [importFromJSON, exportToJSON, reparse, eventTuple, getEventCount]

/-- C3: with the default maxRetryAttempts = 3 a run of failing connection
attempts schedules exactly the delays 1000, 2000 and 4000 ms (2^attempt ×
1000 for attempts 0, 1, 2) and never a fourth automatic retry, however long
it keeps running; once the counter has reached 3 no further retry is
scheduled; and any successful connection resets the counter to 0. -/
theorem backoff_delays_and_counter_reset :
    (∀ n : Nat, failAllCascade true 3 (n + 4) ⟨0⟩ = [1000, 2000, 4000])
    ∧ retryScheduled true 3 ⟨3⟩ = none
    ∧ (∀ s : ConnMgrState, (onConnectSuccess s).retryAttempts = 0) := by
  refine ⟨?_, by decide, fun s => rfl⟩
  intro n
  show failAllCascade true 3 (n + 3 + 1) ⟨0⟩ = [1000, 2000, 4000]
  rw [failAllCascade]
  show 1000 :: failAllCascade true 3 (n + 2 + 1) ⟨1⟩ = _
  rw [failAllCascade]
  show 1000 :: 2000 :: failAllCascade true 3 (n + 1 + 1) ⟨2⟩ = _
  rw [failAllCascade]
  show 1000 :: 2000 :: 4000 :: failAllCascade true 3 (n + 1) ⟨3⟩ = _
  rw [failAllCascade]
  rfl

/-- C4: on any input whose parse throws or whose parsed value does not carry
an array-valued events field, importFromJSON returns false and leaves the
recorder state (events, isRecording, startTime, stopTime, and hence
getEventCount) exactly as it was. -/
theorem importFromJSON_malformed_leaves_state (now : Int) (inp : ImportInput)
    (s : RecorderState)
    (h : inp = ImportInput.notJson
        ∨ ∃ r, inp = ImportInput.parsed r ∧ ∀ xs, r.events ≠ JsonEventsField.array xs) :
    importFromJSON now inp s = (false, s) := by
  rcases h with h | ⟨r, hr, hne⟩
  · subst h; rfl
  · subst hr
    cases hEv : r.events with
    | absentOrFalsy => simp [importFromJSON, hEv]
    | nonArray => simp [importFromJSON, hEv]
    | array xs => exact absurd hEv (hne xs)

/-- Witness for C4: a concrete malformed import (events present but not an
array) returns false and leaves a concrete nonempty recorder state intact. -/
theorem importFromJSON_malformed_leaves_state_witness :
    importFromJSON 77
        (ImportInput.parsed ⟨some 5, some 9, JsonEventsField.nonArray⟩)
        ⟨[⟨"noteon", "C4", some 1, 0⟩], false, some 3, some 4⟩
      = (false, ⟨[⟨"noteon", "C4", some 1, 0⟩], false, some 3, some 4⟩) :=
  importFromJSON_malformed_leaves_state 77
    (ImportInput.parsed ⟨some 5, some 9, JsonEventsField.nonArray⟩)
    ⟨[⟨"noteon", "C4", some 1, 0⟩], false, some 3, some 4⟩
    (Or.inr ⟨⟨some 5, some 9, JsonEventsField.nonArray⟩, rfl, fun xs h => by cases h⟩)

/-- C5: a noteon with velocity 0 is processed exactly like a noteoff for the
same note by every consumer of normalized messages: playback scheduling
(scheduleEvent), the MIDI export's per-event encoder (eventDataBytes), the
timing analyzer's message handler (taHandle), and the keyboard component's
note-event dispatch (handleMidiDispatch) — for any timing-analyzer state,
audio-started flag, timestamps, and whatever velocity field the noteoff
message carries. -/
theorem noteonZero_equals_noteoff (note : String) (t ts : Int) (v : Option Rat)
    (c : Option Nat) (io : Option Bool) (ta : TimingAnalyzerState) (started : Bool) :
    scheduleEvent ⟨"noteon", note, some 0, t⟩ = scheduleEvent ⟨"noteoff", note, v, t⟩
    ∧ eventDataBytes ⟨"noteon", note, some 0, t⟩ = eventDataBytes ⟨"noteoff", note, v, t⟩
    ∧ taHandle ⟨"noteon", note, some 0, c, io, ts⟩ ta
        = taHandle ⟨"noteoff", note, v, c, io, ts⟩ ta
    ∧ handleMidiDispatch started ⟨"noteon", note, some 0, c, io, ts⟩
        = handleMidiDispatch started ⟨"noteoff", note, v, c, io, ts⟩ := by
  refine ⟨?_, ?_, ?_, ?_⟩
  · simp [scheduleEvent, velPos]
  · simp [eventDataBytes, velPos]
  · simp [taHandle, velPos]
  · cases started <;> simp [handleMidiDispatch]

/-- C6: activateNote and deactivateNote are idempotent: for any tracker
state, note and source, n + 1 identical calls leave exactly the state
(per-source sets and the derived activeNotes array) of a single call. -/
theorem activate_deactivate_idempotent (n : Nat) (note : String) (src : NoteSource)
    (s : PianoNotesState) :
    (activateNote note src)^[n + 1] s = activateNote note src s
    ∧ (deactivateNote note src)^[n + 1] s = deactivateNote note src s :=
  ⟨iterate_of_idempotent (activateNote note src) (activateNote_idem note src) n s,
   iterate_of_idempotent (deactivateNote note src) (deactivateNote_idem note src) n s⟩

/-- C7: on a pedal-up transition, an operational engine (synth created and
samples loaded) releases all currently sounding notes — the sampler is sent
releaseAll, the active-note set becomes empty — and the sustain flag drops. -/
theorem setSustain_false_releases_all (s : AudioEngineState)
    (hp : s.synthPresent = true) (hl : s.isLoaded = true) :
    (setSustain false s).1.activeNotes = []
    ∧ (setSustain false s).2 = [SynthCmd.releaseAll]
    ∧ (setSustain false s).1.isSustainActive = false := by
  simp [setSustain, stopAllNotes, hp, hl]

/-- Witness for C7: a loaded engine with two sounding notes and the pedal
down ends with an empty active set, a releaseAll command, and sustain off. -/
theorem setSustain_false_releases_all_witness :
    (setSustain false ⟨true, true, true, ["C4", "E4"]⟩).1.activeNotes = []
    ∧ (setSustain false ⟨true, true, true, ["C4", "E4"]⟩).2 = [SynthCmd.releaseAll]
    ∧ (setSustain false ⟨true, true, true, ["C4", "E4"]⟩).1.isSustainActive = false :=
  setSustain_false_releases_all ⟨true, true, true, ["C4", "E4"]⟩ rfl rfl

/-- C8: for any playback created by playRecording, after any sequence of
timer firings, once stop has run (setting the isStopped flag and clearing
every pending timeout) no further timeout — note callback or the onFinish
completion callback alike — can invoke its callback. -/
theorem playback_stop_silences (evs : List RecEvent) (fired : List PlayTask)
    (t : PlayTask) :
    pbStop (pbRun (pbInit evs) fired) = ⟨true, []⟩
    ∧ (pbFire (pbStop (pbRun (pbInit evs) fired)) t).2 = none := by
  refine ⟨rfl, ?_⟩
  simp [pbStop, pbFire]

/-- C10: playRecording on an empty buffer invokes onFinish synchronously
before returning, schedules no timeouts, and the returned handle has nothing
to cancel: firing anything against its playback state — stopped or not —
invokes no callback, so cancellation cannot retract the already-delivered
onFinish. -/
theorem playRecording_empty_immediate_finish :
    (playRecording []).immediate = [PlayCall.finish]
    ∧ (playRecording []).tasks = []
    ∧ (∀ t : PlayTask, pbFire (pbInit []) t = (pbInit [], none))
    ∧ (∀ t : PlayTask, pbFire (pbStop (pbInit [])) t = (pbStop (pbInit []), none)) := by
  refine ⟨rfl, rfl, ?_, ?_⟩ <;> intro t <;>
    simp [pbFire, pbStop, pbInit, playRecording]

/-- C9: analyzeTiming reports, per completed note, exactly the specification's
accuracy clamp(1 - |1 - actual/expected|, 0, 1) — rendered, as the spec's own
scenario shows, as a rounded percentage — together with isTooLong iff
actual/expected > 1.2 and isTooShort iff actual/expected < 0.8; and in the
concrete scenarios, after setTempo 120 the beat is 500 ms, a note held
exactly 500 ms scores accuracy 100 with both flags false, and a note held
700 ms (ratio 700/500 = 1.4) is flagged too long. -/
theorem analyzeTiming_accuracy_and_flags :
    (∀ expected actual : Rat,
      (analyzeEntry expected actual).accuracy
          = jsRound (100 * clamp01 (1 - |1 - actual / expected|))
      ∧ ((analyzeEntry expected actual).isTooLong = true ↔ 12 / 10 < actual / expected)
      ∧ ((analyzeEntry expected actual).isTooShort = true ↔ actual / expected < 8 / 10))
    ∧ (setTempo 120 taInit).beatDuration = 500
    ∧ taScenarioHeld500
        = [(some 60, ⟨500, 500, 100, false, false⟩)]
    ∧ taScenarioHeld700
        = [(some 62, ⟨500, 700, 60, true, false⟩)]
    ∧ (700 : Rat) / 500 = 14 / 10 := by
  refine ⟨?_, by norm_num [setTempo, taInit], ?_, ?_, by norm_num⟩
  case refine_2 =>
    norm_num [taScenarioHeld500, analyzeRhythm, analyzeTiming, taHandle, setTempo, taInit,
      getMidiNoteNumber_C4, updateKey, lookupKey, startTruthy, velPos, analyzeEntry, jsRound,
      round_eq, List.filterMap_cons, List.filterMap_nil]
  case refine_3 =>
    norm_num [taScenarioHeld700, analyzeRhythm, analyzeTiming, taHandle, setTempo, taInit,
      getMidiNoteNumber_D4, updateKey, lookupKey, startTruthy, velPos, analyzeEntry, jsRound,
      round_eq, List.filterMap_cons, List.filterMap_nil]
    rw [abs_of_nonneg (by norm_num : (0 : Rat) ≤ 2 / 5),
      min_eq_left (by norm_num : (2 : Rat) / 5 ≤ 1)]
    norm_num
  intro expected actual
  refine ⟨?_, by simp [analyzeEntry], by simp [analyzeEntry]⟩
  have habs : (0 : Rat) ≤ |1 - actual / expected| := abs_nonneg _
  rcases le_total (|1 - actual / expected|) 1 with hle | hge
  · simp only [analyzeEntry, clamp01, jsRound]
    rw [min_eq_left hle, min_eq_left (by linarith), max_eq_right (by linarith)]
    ring_nf
  · simp only [analyzeEntry, clamp01, jsRound]
    rw [min_eq_right hge, min_eq_left (by linarith), max_eq_left (by linarith)]
    norm_num

end MidiKeyboard
